import Mathlib

/-!
Verification development for the PouchDB storage-adapter plugin
(`PouchDbPlugin.ts`, `validator.ts`, and the retrying `Transaction` class).

Shallow embedding conventions:
* A runtime document field that may be `null`/`undefined` is an `Option`.
* JavaScript objects used as id-keyed maps are association lists where a
  later assignment shadows an earlier one: insertion conses at the front
  and lookup takes the first hit.
* Promise-based code is embedded with `Except`: a rejection is `Except.error`.
* The extra, schema-free fields an entity may carry beyond the identity
  fields are collected in the `other` component, so that frame properties
  ("all other fields preserved") are expressible.
-/

/-- An entity (document) as the plugin sees it at runtime: the three identity
fields `_id`, `_rev`, `DocumentType` (each possibly absent), the `_deleted`
tombstone marker, and the remaining caller-defined fields. -/
structure Entity where
  _id : Option String
  _rev : Option String
  DocumentType : Option String
  _deleted : Option Bool
  other : List (String × String)
deriving DecidableEq, Repr

/-- JavaScript truthiness of a possibly-absent string value:
`undefined`/`null` and the empty string are falsy, any other string truthy. -/
def truthyStr : Option String → Bool
  | none => false
  | some s => s != ""

def idPropName : String := "_id"
def revPropName : String := "_rev"
def docTypePropName : String := "DocumentType"

/-- Field access `entity[w]` for the three property names the validator
inspects (`validator.ts`, line 12). -/
def fieldValue (entity : Entity) (w : String) : Option String :=
  if w = idPropName then entity._id
  else if w = revPropName then entity._rev
  else if w = docTypePropName then entity.DocumentType
  else none

/-- One validation result per required property (`validator.ts`). -/
structure ValidationResult where
  propertyName : String
  ok : Bool
  error : String
  entity : Entity
deriving DecidableEq, Repr

def nullErrA : String := "Property cannot be null or undefined.  Property: "
def nullErrB : String := ", Entity: "
def undefinedLit : String := "undefined"
def quoteLit : String := "\""
def sepLit : String := "|"

/-- Rendering of a possibly-absent string for diagnostics. -/
def optJson : Option String → String
  | none => undefinedLit
  | some s => quoteLit ++ s ++ quoteLit

/-- Abstraction of `JSON.stringify(entity)` in the validator error message:
a deterministic textual snapshot of the identity fields. -/
def entityJson (e : Entity) : String :=
  optJson e._id ++ sepLit ++ optJson e._rev ++ sepLit ++ optJson e.DocumentType

/-- Embedding of `validateAttachedEntity` (`validator.ts`, lines 10-31): for each of the
three required properties, ok unless the value is `null`/`undefined`;
note an empty string passes (the source checks `value == null`, a presence
check, not truthiness). -/
def validateAttachedEntity (entity : Entity) : List ValidationResult :=
  [idPropName, revPropName, docTypePropName].map (fun w =>
    if (fieldValue entity w).isNone then
      { propertyName := w, ok := false
        error := nullErrA ++ w ++ nullErrB ++ entityJson entity
        entity := entity }
    else
      { propertyName := w, ok := true, error := "", entity := entity })

/-- Embedding of `_isAdditionAllowed` (`PouchDbPlugin.ts`, lines 182-191): an entity with a
truthy `_rev` cannot be added. -/
def isAdditionAllowed (entity : Entity) : Bool :=
  if truthyStr entity._rev then false else true

/-- The only operation tag `isOperationAllowed` accepts in the source is the
string literal type `add`. -/
inductive Operation
  | add
deriving DecidableEq, Repr

/-- Embedding of `isOperationAllowed` (`PouchDbPlugin.ts`, lines 202-209); the trailing
`return false` of the source is unreachable for the `add`-typed argument. -/
def isOperationAllowed (entity : Entity) (operation : Operation) : Bool :=
  match operation with
  | Operation.add => isAdditionAllowed entity

/-- Per-entity body of `formatDeletions` (`PouchDbPlugin.ts`, lines 193-200):
`{ ...w, _id: w._id, _rev: w._rev, DocumentType: w.DocumentType, _deleted: true }`.
The spread copies every field of `w`; the named fields then overwrite with
their own values, and `_deleted` is set `true`. -/
def formatDeletionsOne (w : Entity) : Entity :=
  { w with _id := w._id, _rev := w._rev, DocumentType := w.DocumentType
           _deleted := some true }

/-- Embedding of `formatDeletions` over a list of entities. -/
def formatDeletions (entities : List Entity) : List Entity :=
  entities.map formatDeletionsOne

/-- A raw per-document success outcome of the store bulk write
(`PouchDB.Core.Response`): it always carries an id; `ok` and `rev` may be
absent at runtime. -/
structure RawSuccess where
  id : String
  ok : Option Bool
  rev : Option String
deriving DecidableEq, Repr

/-- A raw per-document failure outcome of the store bulk write
(`PouchDB.Core.Error`): the id may be absent. -/
structure RawError where
  id : Option String
  message : Option String
  rev : Option String
deriving DecidableEq, Repr

/-- One element of the raw bulk-write outcome list: the source discriminates
by the presence of an `error` field (`in` operator). -/
inductive BulkDocsItem
  | success (s : RawSuccess)
  | error (e : RawError)
deriving DecidableEq, Repr

/-- One entry of the reconciled success/error maps (`IBulkOperation`).
A success entry never receives an `error` field in the source, so it is
`none` there; an error entry receives `ok := some false`. -/
structure IBulkOperation where
  id : String
  ok : Option Bool
  error : Option String
  rev : Option String
deriving DecidableEq, Repr

/-- Id-keyed JavaScript-object maps: association lists where assignment
conses and lookup takes the first (i.e. latest) binding. -/
def alInsert (m : List (String × IBulkOperation)) (k : String) (v : IBulkOperation) :
    List (String × IBulkOperation) :=
  (k, v) :: m

def alLookup (m : List (String × IBulkOperation)) (k : String) : Option IBulkOperation :=
  (m.find? (fun p => p.1 == k)).map Prod.snd

def alKeys (m : List (String × IBulkOperation)) : List String :=
  m.map Prod.fst

/-- Cardinality of an id-keyed map: the number of distinct keys. -/
def alCard (m : List (String × IBulkOperation)) : Nat :=
  (alKeys m).dedup.length

/-- The reconciled response shape `IBulkOperationsResponse`. -/
structure IBulkOperationsResponse where
  errors : List (String × IBulkOperation)
  successes : List (String × IBulkOperation)
  errors_count : Nat
  successes_count : Nat
deriving DecidableEq, Repr

def emptyResponse : IBulkOperationsResponse :=
  { errors := [], successes := [], errors_count := 0, successes_count := 0 }

/-- Loop body of `formatBulkDocsResponse` (`PouchDbPlugin.ts`, lines 130-156):
the guard `if (!error.id) continue` is a truthiness test, so an error item
whose id is absent or the empty string is skipped; an error item with a
nonempty id goes to the `errors` map with `ok := false`; a success item goes
to the `successes` map unconditionally. -/
def formatStep (result : IBulkOperationsResponse) (item : BulkDocsItem) :
    IBulkOperationsResponse :=
  match item with
  | BulkDocsItem.error e =>
    match e.id with
    | none => result
    | some eid =>
      if eid = "" then result
      else
        { result with
          errors_count := result.errors_count + 1
          errors := alInsert result.errors eid
            { id := eid, ok := some false, error := e.message, rev := e.rev } }
  | BulkDocsItem.success s =>
      { result with
        successes_count := result.successes_count + 1
        successes := alInsert result.successes s.id
          { id := s.id, ok := s.ok, error := none, rev := s.rev } }

/-- Embedding of `formatBulkDocsResponse` (`PouchDbPlugin.ts`, lines 122-159): fold the
loop body over the raw outcome list starting from the empty response. -/
def formatBulkDocsResponse (response : List BulkDocsItem) : IBulkOperationsResponse :=
  response.foldl formatStep emptyResponse

/-- Embedding of `bulkOperations` (`PouchDbPlugin.ts`, lines 115-120), with the
`bulkDocs` call of the store abstracted as a function argument: the documents handed to
the store are `[...removes, ...adds, ...updates]`. -/
def bulkOperations (bulkDocs : List Entity → List BulkDocsItem)
    (adds removes updates : List Entity) : IBulkOperationsResponse :=
  formatBulkDocsResponse (bulkDocs (removes ++ adds ++ updates))

/-- The id a raw outcome carries, when present (the empty string counts as
present here). -/
def itemId : BulkDocsItem → Option String
  | BulkDocsItem.success s => some s.id
  | BulkDocsItem.error e => e.id

def isErrorItem : BulkDocsItem → Bool
  | BulkDocsItem.success _ => false
  | BulkDocsItem.error _ => true

/-- A possibly-absent id as the truthiness guard `!error.id` sees it:
`none` when absent or empty (falsy), otherwise the id itself. -/
def truthyId : Option String → Option String
  | none => none
  | some s => if s = "" then none else some s

/-- The key under which an outcome enters a reconciled map, if any: a
success enters under its id unconditionally, an error only under a truthy
(nonempty) id. -/
def keyedId : BulkDocsItem → Option String
  | BulkDocsItem.success s => some s.id
  | BulkDocsItem.error e => truthyId e.id

/-- All map-entering ids of a raw outcome list, in order. -/
def keyedIds (items : List BulkDocsItem) : List String :=
  items.filterMap keyedId

/-- Ids of the success outcomes, in order. -/
def successIds (items : List BulkDocsItem) : List String :=
  items.filterMap (fun it => match it with
    | BulkDocsItem.success s => some s.id
    | BulkDocsItem.error _ => none)

/-- Truthy ids of the error outcomes, in order. -/
def errorIds (items : List BulkDocsItem) : List String :=
  items.filterMap (fun it => match it with
    | BulkDocsItem.success _ => none
    | BulkDocsItem.error e => truthyId e.id)

/-- Number of outcomes lacking an id altogether. -/
def missingIdCount (items : List BulkDocsItem) : Nat :=
  items.countP (fun it => (itemId it).isNone)

/-- Number of error outcomes the loop drops: those whose id is absent or
empty (the falsy ids the guard `!error.id` skips). -/
def droppedErrorCount (items : List BulkDocsItem) : Nat :=
  items.countP (fun it => match it with
    | BulkDocsItem.error e => (truthyId e.id).isNone
    | BulkDocsItem.success _ => false)

/-- The success entry `setDbGeneratedValues` looks up for an entity:
`response.successes[modification._id]` (`PouchDbPlugin.ts`, line 254). -/
def successLookup (response : IBulkOperationsResponse) (modification : Entity) :
    Option IBulkOperation :=
  match modification._id with
  | none => none
  | some mid => alLookup response.successes mid

/-- Per-entity body of the `setDbGeneratedValues` loop (`PouchDbPlugin.ts`,
lines 252-261): when the looked-up entry exists and has `ok === true`, the
revision token is overwritten; otherwise the entity is untouched. -/
def applyGeneratedValue (response : IBulkOperationsResponse) (modification : Entity) :
    Entity :=
  match successLookup response modification with
  | some found =>
    if found.ok = some true then { modification with _rev := found.rev }
    else modification
  | none => modification

/-- Embedding of `setDbGeneratedValues` (`PouchDbPlugin.ts`, lines 251-262); the in-place
mutation of the entity array is embedded as returning the updated list. -/
def setDbGeneratedValues (response : IBulkOperationsResponse)
    (entities : List Entity) : List Entity :=
  entities.map (applyGeneratedValue response)

/-- The single document the `bulkGet` call of the store returns for a requested id
(`w.docs[0]` in the source; without `open_revs`, PouchDB returns exactly one
doc per requested id): either the found entity or an error payload. -/
inductive BulkGetDoc
  | ok (entity : Entity)
  | error (payload : String)
deriving DecidableEq, Repr

/-- One element of `result.results` of the `bulkGet` store call. -/
structure BulkGetResultItem where
  id : Option String
  doc : BulkGetDoc
deriving DecidableEq, Repr

def docidLabel : String := "docid: "
def errorLabel : String := ", error: "

/-- Per-item body of the `getStrict` result mapping (`PouchDbPlugin.ts`,
lines 82-90): an error doc throws with the id and the serialized payload,
an ok doc yields the entity. -/
def processBulkGetItem (w : BulkGetResultItem) : Except String Entity :=
  match w.doc with
  | BulkGetDoc.error payload =>
      Except.error (docidLabel ++ optJson w.id ++ errorLabel ++ payload)
  | BulkGetDoc.ok e => Except.ok e

/-- The `result.results.map(...)` of `getStrict`: the first error doc makes
the whole call throw, otherwise all entities are returned. -/
def processBulkGet (results : List BulkGetResultItem) : Except String (List Entity) :=
  results.mapM processBulkGetItem

instance instDecEqExcept {ε α : Type} [DecidableEq ε] [DecidableEq α] :
    DecidableEq (Except ε α) := fun x y =>
  match x, y with
  | Except.error u, Except.error v =>
      if h : u = v then Decidable.isTrue (congrArg Except.error h)
      else Decidable.isFalse (fun hh => h (Except.error.inj hh))
  | Except.error _, Except.ok _ => Decidable.isFalse (fun hh => Except.noConfusion hh)
  | Except.ok _, Except.error _ => Decidable.isFalse (fun hh => Except.noConfusion hh)
  | Except.ok u, Except.ok v =>
      if h : u = v then Decidable.isTrue (congrArg Except.ok h)
      else Decidable.isFalse (fun hh => h (Except.ok.inj hh))

/-- The value of a store-touching operation together with the argument the
store call received (`none` when the store was never called). -/
structure CallResult (α : Type) where
  value : α
  storeArg : Option (List (Option String))
deriving DecidableEq, Repr

/-- Embedding of `getStrict` (`PouchDbPlugin.ts`, lines 75-91), with the store call `bulkGet`
abstracted as a function argument. An empty id set short-circuits without a
store call. -/
def getStrict (bulkGet : List (Option String) → List BulkGetResultItem)
    (ids : List (Option String)) : CallResult (Except String (List Entity)) :=
  if ids.length = 0 then
    { value := Except.ok [], storeArg := none }
  else
    { value := processBulkGet (bulkGet ids), storeArg := some ids }

/-- The validation failures `prepareAttachments` and `prepareDetachments`
compute (`PouchDbPlugin.ts`, lines 162 and 234):
`entities.map(validateAttachedEntity).flat().filter(w => w.ok === false)`. -/
def validationFailures (entities : List Entity) : List ValidationResult :=
  ((entities.map validateAttachedEntity).flatten).filter (fun w => w.ok == false)

/-- The `{ok, docs, errors}` result shape of the prepare operations. -/
structure PrepareResult where
  ok : Bool
  docs : List Entity
  errors : List String
deriving DecidableEq, Repr

/-- The dictionary `found.reduce((a, v) => ({...a, [v._id]: v._rev}), {})`
(`PouchDbPlugin.ts`, line 176): later entries shadow earlier ones. -/
def buildFoundDictionary (found : List Entity) : List (Option String × Option String) :=
  found.foldl (fun a v => (v._id, v._rev) :: a) []

/-- Lookup `foundDictionary[w._id]`: a miss yields `undefined` (`none`). -/
def dictLookup (dict : List (Option String × Option String)) (k : Option String) :
    Option String :=
  match dict.find? (fun p => p.1 == k) with
  | none => none
  | some p => p.2

/-- Embedding of `prepareAttachments` (`PouchDbPlugin.ts`, lines 161-180): validation
failures short-circuit with `ok := false` and no store call; otherwise a
strict read by the entity ids is performed, and the `_rev` of each entity is
overwritten from the lookup dictionary. A thrown `getStrict` error
propagates. -/
def prepareAttachments (bulkGet : List (Option String) → List BulkGetResultItem)
    (entities : List Entity) : CallResult (Except String PrepareResult) :=
  let failures := validationFailures entities
  if failures.length > 0 then
    { value := Except.ok
        { ok := false, docs := [], errors := failures.map (fun w => w.error) }
      storeArg := none }
  else
    let g := getStrict bulkGet (entities.map (fun w => w._id))
    match g.value with
    | Except.error msg => { value := Except.error msg, storeArg := g.storeArg }
    | Except.ok found =>
      let dict := buildFoundDictionary found
      { value := Except.ok
          { ok := true
            docs := entities.map (fun w => { w with _rev := dictLookup dict w._id })
            errors := [] }
        storeArg := g.storeArg }

/-- An error value as the retry logic probes it: a possibly-absent `status`
field (numeric or not), a possibly-absent textual `message` (a present
non-string message is folded into `none`, matching the
`typeof e.message === string` guard), and the remaining fields. -/
inductive StatusVal
  | num (n : Int)
  | other
deriving DecidableEq, Repr

structure ErrorObj where
  status : Option StatusVal
  message : Option String
  fields : List (String × String)
deriving DecidableEq, Repr

/-- Embedding of `Transaction._shouldRetry` (part_000, lines 24-34): retry exactly when a
numeric `status` field is present with value at least 500. -/
def shouldRetry (e : ErrorObj) : Bool :=
  match e.status with
  | some (StatusVal.num status) => decide (500 ≤ status)
  | some StatusVal.other => false
  | none => false

/-- The backoff update of `Transaction.execute` (part_000, lines 46-50):
`0` becomes `25`, otherwise the value doubles. -/
def nextBackoff (b : Nat) : Nat :=
  if b = 0 then 25 else b * 2

/-- The ceiling `Transaction._maxBackoffTimeout` (part_000, line 10). -/
def maxBackoffTimeout : Nat := 2000

def retryFailedA : String := "Retry Failed.  Max Wait: "
def retryFailedB : String := ".  Original Message: "

/-- The terminal rejection value at the backoff ceiling (part_000, lines
52-61): when the error exposes a string `message`, it is replaced by the
annotated one, every other field being preserved; otherwise the error is
rejected unmodified. -/
def rejectError (b : Nat) (e : ErrorObj) : ErrorObj :=
  match e.message with
  | some m => { e with message := some (retryFailedA ++ Nat.repr b ++ retryFailedB ++ m) }
  | none => e

/-- Outcome of a whole transaction: the `setTimeout` delays actually waited,
in order, and the terminal resolution. -/
structure TxResult (α : Type) where
  waits : List Nat
  outcome : Except ErrorObj α
deriving DecidableEq, Repr

/-- Embedding of `Transaction.execute` (part_000, lines 36-70) from attempt `i` with the
current `_backoffTimeout` value `backoff`, the outcomes of the successive
attempts being prescribed by `attempts`. A success resolves; a non-retryable
failure rejects at once with the original error; a retryable failure first
advances the backoff, rejects (annotated) when the new value reaches the
ceiling, and otherwise waits the new backoff and re-runs the unit of work. -/
def executeFrom {α : Type} (attempts : Nat → Except ErrorObj α) (i : Nat)
    (backoff : Nat) : TxResult α :=
  match attempts i with
  | Except.ok v => { waits := [], outcome := Except.ok v }
  | Except.error e =>
    if shouldRetry e = true then
      if maxBackoffTimeout ≤ nextBackoff backoff then
        { waits := [], outcome := Except.error (rejectError (nextBackoff backoff) e) }
      else
        let r := executeFrom attempts (i + 1) (nextBackoff backoff)
        { waits := nextBackoff backoff :: r.waits, outcome := r.outcome }
    else
      { waits := [], outcome := Except.error e }
termination_by maxBackoffTimeout - backoff
decreasing_by
  rename_i h
  simp only [maxBackoffTimeout, nextBackoff] at h ⊢
  by_cases hb : backoff = 0
  · subst hb
    decide
  · rw [if_neg hb] at h ⊢
    omega

/-- A whole transaction starts at attempt `0` with `_backoffTimeout = 0`
(part_000, line 9). -/
def execute {α : Type} (attempts : Nat → Except ErrorObj α) : TxResult α :=
  executeFrom attempts 0 0

/-- How the `find` store call inside `all` can behave: resolve with docs,
throw synchronously while the promise is being created, or return a promise
that later rejects. -/
inductive FindBehavior
  | ok (docs : List Entity)
  | throwSync (e : ErrorObj)
  | rejectAsync (e : ErrorObj)
deriving DecidableEq, Repr

def dbClosedMsg : String := "database is closed"

def listHasSub : List Char → List Char → Bool
  | _, [] => true
  | [], _ :: _ => false
  | c :: cs, p => (List.isPrefixOf p (c :: cs)) || listHasSub cs p

/-- JavaScript `s.includes(pat)`. -/
def strIncludes (s pat : String) : Bool :=
  listHasSub s.data pat.data

/-- The guard testing a `message` field whose text includes `database is closed`
(`PouchDbPlugin.ts`, line 58). -/
def messageSaysClosed (e : ErrorObj) : Bool :=
  match e.message with
  | some m => strIncludes m dbClosedMsg
  | none => false

/-- The `all` operation (`PouchDbPlugin.ts`, lines 44-69) as a function of
how the `find` call behaves. The `try`/`catch` sits inside the non-`async`
action around `return w.find(findOptions)`, so it intercepts only a
synchronous throw of the `find` invocation: a closed-database throw is
rethrown and any other synchronous throw degrades to an empty doc list,
while a rejection of the returned promise reaches the `await` in `doWork`
uncaught and so rejects the whole `all` call. -/
def allDocs (find : FindBehavior) : Except ErrorObj (List Entity) :=
  match find with
  | FindBehavior.ok docs => Except.ok docs
  | FindBehavior.throwSync e =>
      if messageSaysClosed e = true then Except.error e else Except.ok []
  | FindBehavior.rejectAsync e => Except.error e

/-! Concrete inputs used by witnesses and counterexamples. -/

def idLitE1 : String := "e1"
def idLitA : String := "a"
def revLit1 : String := "1-a"
def revLit2 : String := "2-b"
def docTypeNote : String := "Note"
def nameKey : String := "name"
def nameVal : String := "widget"
def fieldKeyK : String := "k"
def fieldValV : String := "v"
def boomMsg : String := "boom"
def conflictMsg : String := "conflict"
def notFoundMsg : String := "not found"

/-- An entity carrying an extra caller-defined field. -/
def sampleDeletable : Entity :=
  { _id := some idLitE1, _rev := some revLit1, DocumentType := some docTypeNote
    _deleted := none, other := [(nameKey, nameVal)] }

/-- An entity failing validation: its `DocumentType` is null. -/
def badEntity : Entity :=
  { _id := some idLitE1, _rev := some revLit1, DocumentType := none
    _deleted := none, other := [] }

def emptyBulkGet : List (Option String) → List BulkGetResultItem := fun _ => []

/-- A valid entity submitted to `prepareAttachments`. -/
def entC4 : Entity :=
  { _id := some idLitE1, _rev := some revLit1, DocumentType := some docTypeNote
    _deleted := none, other := [] }

/-- The store-known version of `entC4`, with a newer revision token. -/
def foundC4 : Entity :=
  { _id := some idLitE1, _rev := some revLit2, DocumentType := some docTypeNote
    _deleted := none, other := [] }

def bulkGetC4 : List (Option String) → List BulkGetResultItem :=
  fun ids => ids.map (fun j => { id := j, doc := BulkGetDoc.ok foundC4 })

/-- A raw outcome list in which the same id succeeds and fails. -/
def dupItems : List BulkDocsItem :=
  [BulkDocsItem.success { id := idLitA, ok := some true, rev := some revLit1 },
   BulkDocsItem.error { id := some idLitA, message := some conflictMsg, rev := none }]

def emptyIdLit : String := ""

/-- A raw outcome list whose only element is an error carrying a present but
empty id: the loop guard `!error.id` skips it. -/
def emptyIdItems : List BulkDocsItem :=
  [BulkDocsItem.error { id := some emptyIdLit, message := some conflictMsg, rev := none }]

def notFoundPayload : String := "not_found"

/-- A store whose strict bulk read answers every requested id with an error
doc, as the store interface prescribes for ids not found in the store. -/
def notFoundBulkGet : List (Option String) → List BulkGetResultItem :=
  fun ids => ids.map (fun j => { id := j, doc := BulkGetDoc.error notFoundPayload })

/-- A raw outcome list with a success, an attributable error and an
unattributable error. -/
def itemsC2 : List BulkDocsItem :=
  [BulkDocsItem.success { id := idLitE1, ok := some true, rev := some revLit1 },
   BulkDocsItem.error { id := some idLitA, message := some conflictMsg, rev := none },
   BulkDocsItem.error { id := none, message := some boomMsg, rev := none }]

def opC10 : IBulkOperation :=
  { id := idLitA, ok := some true, error := none, rev := some revLit2 }

def respC10 : IBulkOperationsResponse :=
  { errors := [], successes := [(idLitA, opC10)], errors_count := 0, successes_count := 1 }

def entC10 : Entity :=
  { _id := some idLitA, _rev := some revLit1, DocumentType := some docTypeNote
    _deleted := none, other := [(nameKey, nameVal)] }

/-- A 4xx-class error: non-retryable. -/
def err404 : ErrorObj :=
  { status := some (StatusVal.num 404), message := some notFoundMsg, fields := [] }

def attempts404 : Nat → Except ErrorObj (List Entity) := fun _ => Except.error err404

/-- A 503 error with a message and one extra field. -/
def err503 : ErrorObj :=
  { status := some (StatusVal.num 503), message := some boomMsg
    fields := [(fieldKeyK, fieldValV)] }

def attempts503 : Nat → Except ErrorObj Unit := fun _ => Except.error err503

/-- The message preamble the claim asserts for the terminal retry rejection. -/
def claimedPreamble : String := "Retry Failed. Max Wait: 2000."

/-- The message the code actually produces for an always-503 unit of work. -/
def annotated503Msg : String := retryFailedA ++ Nat.repr 3200 ++ retryFailedB ++ boomMsg

/-- A generic error that does not mention a closed database. -/
def boomError : ErrorObj := { status := none, message := some boomMsg, fields := [] }

/-! Theorems. -/

/-- Claim C3: the add-admission check (`canAdd` via `isOperationAllowed` with
operation `add`) returns `true` exactly when the revision token is absent in
the falsy sense of the spec (null, undefined, or the empty string), and
`false` exactly when a non-empty revision token is present. -/
theorem isOperationAllowed_add_iff_rev_absent (e : Entity) :
    isOperationAllowed e Operation.add = !(truthyStr e._rev) := by
  unfold isOperationAllowed isAdditionAllowed
  cases h : truthyStr e._rev <;> simp [h]

/-- Claim C5, counterexample: `formatDeletions` does not drop the other
fields of an entity; on a concrete entity with an extra `name` field the
result still carries that field, so the produced copy does not contain
exactly the id, revision token, document type and deletion flag. -/
theorem formatDeletions_keeps_extra_fields :
    (formatDeletionsOne sampleDeletable).other = [(nameKey, nameVal)]
    ∧ ¬((formatDeletionsOne sampleDeletable).other = []) := by
  decide

/-- Claim C5 (amended): `formatDeletions` produces a shallow copy of each
entity with the deletion flag set `true` and every field — identity fields
and all other fields alike — preserved; consequently it is idempotent. -/
theorem formatDeletions_tombstone :
    (∀ e : Entity, formatDeletionsOne e =
      { _id := e._id, _rev := e._rev, DocumentType := e.DocumentType
        _deleted := some true, other := e.other })
    ∧ (∀ es : List Entity, formatDeletions (formatDeletions es) = formatDeletions es) := by
  constructor
  · intro e
    rfl
  · intro es
    unfold formatDeletions
    rw [List.map_map]
    rfl

/-- Claim C7: `bulkOperations` hands the bulk-write store call exactly the
concatenation removes, then adds, then updates. -/
theorem bulkOperations_store_order
    (bulkDocs : List Entity → List BulkDocsItem)
    (adds removes updates : List Entity) :
    bulkOperations bulkDocs adds removes updates
      = formatBulkDocsResponse (bulkDocs (removes ++ adds ++ updates)) := by
  rfl

/-- Claim C8: the code diverges from the claim. A find failure delivered as a
rejection of the returned promise is not intercepted by the `catch` inside
the `all` action (the promise is returned, not awaited, inside the `try`),
so a generic error such as `boom` — which is not a closed-database error —
rejects the whole call instead of resolving with an empty document list.
Only a synchronous throw is degraded as the claim describes. -/
theorem all_async_rejection_propagates :
    messageSaysClosed boomError = false
    ∧ allDocs (FindBehavior.rejectAsync boomError) = Except.error boomError
    ∧ allDocs (FindBehavior.rejectAsync boomError) ≠ Except.ok []
    ∧ allDocs (FindBehavior.throwSync boomError) = Except.ok [] := by
  decide

theorem shouldRetry_eq_false_of_status (e : ErrorObj)
    (h : ∀ n, e.status = some (StatusVal.num n) → n < 500) :
    shouldRetry e = false := by
  unfold shouldRetry
  cases hs : e.status with
  | none => rfl
  | some v =>
    cases v with
    | other => rfl
    | num n =>
      have hn := h n hs
      simp
      omega

/-- Claim C6: a failing attempt whose error does not carry a numeric status
of at least 500 makes the transaction reject immediately with the original
error object unmodified, with no retry wait scheduled, whatever the attempt
index and the current backoff state. -/
theorem execute_nonretryable_rejects_immediately {α : Type}
    (attempts : Nat → Except ErrorObj α) (e : ErrorObj) (i backoff : Nat)
    (hstatus : ∀ n, e.status = some (StatusVal.num n) → n < 500)
    (hfail : attempts i = Except.error e) :
    executeFrom attempts i backoff = { waits := [], outcome := Except.error e } := by
  have hs : shouldRetry e = false := shouldRetry_eq_false_of_status e hstatus
  rw [executeFrom]
  rw [hfail]
  simp [hs]

/-- Witness for claim C6 at the concrete 404 error. -/
theorem execute_nonretryable_witness :
    (∀ n, err404.status = some (StatusVal.num n) → n < 500)
    ∧ attempts404 0 = Except.error err404
    ∧ executeFrom attempts404 0 0 = { waits := [], outcome := Except.error err404 } := by
  refine ⟨?_, rfl, ?_⟩
  · intro n h
    simp [err404] at h
    omega
  · exact execute_nonretryable_rejects_immediately attempts404 err404 0 0
      (fun n h => by simp [err404] at h; omega) rfl

theorem executeFrom_const_fail_step {α : Type} (e : ErrorObj)
    (he : shouldRetry e = true) (i b : Nat)
    (hb : nextBackoff b < maxBackoffTimeout) :
    executeFrom (α := α) (fun _ => Except.error e) i b
      = { waits := nextBackoff b
            :: (executeFrom (α := α) (fun _ => Except.error e) (i + 1) (nextBackoff b)).waits
          outcome := (executeFrom (α := α) (fun _ => Except.error e) (i + 1) (nextBackoff b)).outcome } := by
  rw [executeFrom]
  simp [he, Nat.not_le.mpr hb]

theorem executeFrom_const_fail_stop {α : Type} (e : ErrorObj)
    (he : shouldRetry e = true) (i b : Nat)
    (hb : maxBackoffTimeout ≤ nextBackoff b) :
    executeFrom (α := α) (fun _ => Except.error e) i b
      = { waits := [], outcome := Except.error (rejectError (nextBackoff b) e) } := by
  rw [executeFrom]
  simp [he, hb]

/-- For a unit of work that always fails with the same retryable error, the
whole transaction waits 25, 50, 100, 200, 400, 800, 1600 and then rejects
with the error annotated at the would-be wait 3200. -/
theorem executeFrom_const_retryable {α : Type} (e : ErrorObj)
    (he : shouldRetry e = true) (i : Nat) :
    executeFrom (α := α) (fun _ => Except.error e) i 0
      = { waits := [25, 50, 100, 200, 400, 800, 1600]
          outcome := Except.error (rejectError 3200 e) } := by
  rw [executeFrom_const_fail_step e he i 0 (by decide),
      show nextBackoff 0 = 25 from rfl]
  rw [executeFrom_const_fail_step e he (i + 1) 25 (by decide),
      show nextBackoff 25 = 50 from rfl]
  rw [executeFrom_const_fail_step e he (i + 1 + 1) 50 (by decide),
      show nextBackoff 50 = 100 from rfl]
  rw [executeFrom_const_fail_step e he (i + 1 + 1 + 1) 100 (by decide),
      show nextBackoff 100 = 200 from rfl]
  rw [executeFrom_const_fail_step e he (i + 1 + 1 + 1 + 1) 200 (by decide),
      show nextBackoff 200 = 400 from rfl]
  rw [executeFrom_const_fail_step e he (i + 1 + 1 + 1 + 1 + 1) 400 (by decide),
      show nextBackoff 400 = 800 from rfl]
  rw [executeFrom_const_fail_step e he (i + 1 + 1 + 1 + 1 + 1 + 1) 800 (by decide),
      show nextBackoff 800 = 1600 from rfl]
  rw [executeFrom_const_fail_stop e he (i + 1 + 1 + 1 + 1 + 1 + 1 + 1) 1600 (by decide),
      show nextBackoff 1600 = 3200 from rfl]

/-- Claim C1, counterexample: for a unit of work that always fails with a
503 error whose message is `boom`, the waits are indeed
25, 50, 100, 200, 400, 800, 1600 and the failure of the 8th attempt rejects with
the other fields preserved — but the rejection message announces a max wait
of 3200 (the about-to-be-used doubled backoff), with double spacing, so it
is not prefixed by the claimed string `Retry Failed. Max Wait: 2000.`. -/
theorem execute_persistent503_counterexample :
    execute attempts503
      = { waits := [25, 50, 100, 200, 400, 800, 1600]
          outcome := Except.error
            { status := some (StatusVal.num 503)
              message := some annotated503Msg
              fields := [(fieldKeyK, fieldValV)] } }
    ∧ List.isPrefixOf claimedPreamble.data annotated503Msg.data = false := by
  constructor
  · have he : shouldRetry err503 = true := rfl
    show executeFrom (fun _ => Except.error err503) 0 0 = _
    rw [executeFrom_const_retryable err503 he 0]
    rfl
  · decide

/-- Claim C1 (amended): for a transaction whose unit of work always fails
with a 503 error carrying a textual message, the retry loop waits
25, 50, 100, 200, 400, 800, 1600 in order between attempts, and on the 8th
attempt it rejects, on failure, with an error whose message is the prefix
`Retry Failed.  Max Wait: 3200.  Original Message: ` (the about-to-be-used
backoff, which first reached the 2000 ceiling, with the double
spacing) followed by the original message, all other error fields being
preserved. -/
theorem execute_persistent503 {α : Type} (m : String) (fl : List (String × String)) :
    execute (α := α) (fun _ => Except.error
        { status := some (StatusVal.num 503), message := some m, fields := fl })
      = { waits := [25, 50, 100, 200, 400, 800, 1600]
          outcome := Except.error
            { status := some (StatusVal.num 503)
              message := some (retryFailedA ++ Nat.repr 3200 ++ retryFailedB ++ m)
              fields := fl } } := by
  have he : shouldRetry
      { status := some (StatusVal.num 503), message := some m, fields := fl } = true := rfl
  show executeFrom _ 0 0 = _
  rw [executeFrom_const_retryable _ he 0]
  rfl

/-- Claim C9: when some entity of the batch fails validation (for instance a
null `DocumentType`), `prepareAttachments` returns `ok := false` with the
validation failure messages as errors, and no store lookup is performed at
all (the store argument log stays `none`), whatever the store would answer. -/
theorem prepareAttachments_invalid_no_store
    (bulkGet : List (Option String) → List BulkGetResultItem)
    (entities : List Entity)
    (hfail : validationFailures entities ≠ []) :
    prepareAttachments bulkGet entities
      = { value := Except.ok
            { ok := false, docs := []
              errors := (validationFailures entities).map (fun w => w.error) }
          storeArg := none } := by
  have hlen : 0 < (validationFailures entities).length := List.length_pos.mpr hfail
  unfold prepareAttachments
  simp [hlen]

/-- Witness for claim C9 at an entity with a null `DocumentType`. -/
theorem prepareAttachments_invalid_witness :
    validationFailures [badEntity] ≠ []
    ∧ prepareAttachments emptyBulkGet [badEntity]
        = { value := Except.ok
              { ok := false, docs := []
                errors := (validationFailures [badEntity]).map (fun w => w.error) }
            storeArg := none } :=
  ⟨by decide, prepareAttachments_invalid_no_store emptyBulkGet [badEntity] (by decide)⟩

theorem buildFoundDictionary_eq (found : List Entity) :
    buildFoundDictionary found
      = (found.map (fun v => (v._id, v._rev))).reverse := by
  have hgen : ∀ (l : List Entity) (acc : List (Option String × Option String)),
      l.foldl (fun a v => (v._id, v._rev) :: a) acc
        = (l.map (fun v => (v._id, v._rev))).reverse ++ acc := by
    intro l
    induction l with
    | nil => intro acc; simp
    | cons x rest ih =>
      intro acc
      simp [List.foldl_cons, ih]
  simpa [buildFoundDictionary] using hgen found []

theorem dictLookup_eq_none_of_not_found (found : List Entity) (id0 : Option String)
    (hid : ∀ v ∈ found, v._id ≠ id0) :
    dictLookup (buildFoundDictionary found) id0 = none := by
  have hnone : (buildFoundDictionary found).find? (fun p => p.1 == id0) = none := by
    rw [List.find?_eq_none]
    intro x hx
    rw [buildFoundDictionary_eq] at hx
    rw [List.mem_reverse, List.mem_map] at hx
    obtain ⟨v, hv, hvx⟩ := hx
    subst hvx
    simp [hid v hv]
  unfold dictLookup
  rw [hnone]

/-- Claim C4, counterexample: an entity whose id is not found in the store
does not keep an undefined revision token — the whole call fails. For the
concrete valid entity `entC4` and a store whose strict read answers a
missing id with an error doc (as the store interface prescribes), the
strict read throws and `prepareAttachments` rejects with the `getStrict`
error instead of returning docs. -/
theorem prepareAttachments_not_found_fails :
    validationFailures [entC4] = []
    ∧ prepareAttachments notFoundBulkGet [entC4]
        = { value := Except.error
              (docidLabel ++ optJson (some idLitE1) ++ errorLabel ++ notFoundPayload)
            storeArg := some [some idLitE1] } := by
  decide

/-- Claim C4 (amended): for a nonempty batch of entities that all pass
validation, `prepareAttachments` performs the strict read with exactly the
entity ids. When every per-id read succeeds, the call returns the input
entities each with its revision token overwritten from the lookup dictionary
built over the read results, an id absent from the result list mapping to an
undefined revision token. When any per-id read fails — as the store
interface prescribes for an id not found in the store — the whole call
rejects with the thrown `getStrict` error. -/
theorem prepareAttachments_strict_read
    (bulkGet : List (Option String) → List BulkGetResultItem)
    (entities : List Entity)
    (hvalid : validationFailures entities = [])
    (hne : entities ≠ []) :
    (∀ found : List Entity,
      processBulkGet (bulkGet (entities.map (fun w => w._id))) = Except.ok found →
        prepareAttachments bulkGet entities
          = { value := Except.ok
                { ok := true
                  docs := entities.map (fun w =>
                    { w with _rev := dictLookup (buildFoundDictionary found) w._id })
                  errors := [] }
              storeArg := some (entities.map (fun w => w._id)) }
        ∧ (∀ id0 : Option String, (∀ v ∈ found, v._id ≠ id0) →
            dictLookup (buildFoundDictionary found) id0 = none))
    ∧ (∀ msg : String,
      processBulkGet (bulkGet (entities.map (fun w => w._id))) = Except.error msg →
        prepareAttachments bulkGet entities
          = { value := Except.error msg
              storeArg := some (entities.map (fun w => w._id)) }) := by
  have hids : (entities.map (fun w => w._id)).length ≠ 0 := by
    simp [List.length_map]
    intro hcon
    exact hne hcon
  constructor
  · intro found hlookup
    constructor
    · unfold prepareAttachments
      simp only [hvalid]
      rw [if_neg (by simp)]
      unfold getStrict
      rw [if_neg hids]
      simp [hlookup]
    · intro id0 hid
      exact dictLookup_eq_none_of_not_found found id0 hid
  · intro msg hlookup
    unfold prepareAttachments
    simp only [hvalid]
    rw [if_neg (by simp)]
    unfold getStrict
    rw [if_neg hids]
    simp [hlookup]

/-- Witness for claim C4: the succeeding branch at a store answering with a
newer revision, and the rejecting branch at a store reporting the id as not
found. -/
theorem prepareAttachments_strict_read_witness :
    validationFailures [entC4] = []
    ∧ [entC4] ≠ []
    ∧ processBulkGet (bulkGetC4 ([entC4].map (fun w => w._id)))
        = Except.ok [foundC4]
    ∧ (prepareAttachments bulkGetC4 [entC4]
        = { value := Except.ok
              { ok := true
                docs := [entC4].map (fun w =>
                  { w with _rev := dictLookup (buildFoundDictionary [foundC4]) w._id })
                errors := [] }
            storeArg := some ([entC4].map (fun w => w._id)) }
      ∧ (∀ id0 : Option String, (∀ v ∈ [foundC4], v._id ≠ id0) →
          dictLookup (buildFoundDictionary [foundC4]) id0 = none))
    ∧ processBulkGet (notFoundBulkGet ([entC4].map (fun w => w._id)))
        = Except.error
            (docidLabel ++ optJson (some idLitE1) ++ errorLabel ++ notFoundPayload)
    ∧ prepareAttachments notFoundBulkGet [entC4]
        = { value := Except.error
              (docidLabel ++ optJson (some idLitE1) ++ errorLabel ++ notFoundPayload)
            storeArg := some ([entC4].map (fun w => w._id)) } :=
  ⟨by decide, by decide, by decide,
    (prepareAttachments_strict_read bulkGetC4 [entC4]
        (by decide) (by decide)).1 [foundC4] (by decide),
    by decide,
    (prepareAttachments_strict_read notFoundBulkGet [entC4]
        (by decide) (by decide)).2
      (docidLabel ++ optJson (some idLitE1) ++ errorLabel ++ notFoundPayload)
      (by decide)⟩

theorem getD_map_of_lt {β : Type} (f : β → β) (l : List β) (i : Nat) (d : β)
    (hi : i < l.length) :
    (l.map f).getD i d = f (l.getD i d) := by
  rw [List.getD_eq_getElem?_getD, List.getD_eq_getElem?_getD, List.getElem?_map]
  rw [List.getElem?_eq_getElem hi]
  rfl

/-- Claim C10: `setDbGeneratedValues` preserves the array length, and for
every position: if the id of the entity has a success entry with `ok` strictly
equal to `true`, only its revision token is overwritten with the revision of
that entry (every other field unchanged); if the `ok` of the entry is not strictly
`true`, or there is no success entry for the id, the entity is left entirely
unchanged. -/
theorem setDbGeneratedValues_frame (response : IBulkOperationsResponse)
    (entities : List Entity) (i : Nat) (d : Entity)
    (hi : i < entities.length) :
    (setDbGeneratedValues response entities).length = entities.length
    ∧ (∀ op : IBulkOperation,
        successLookup response (entities.getD i d) = some op →
          (op.ok = some true →
            (setDbGeneratedValues response entities).getD i d
              = { entities.getD i d with _rev := op.rev })
          ∧ (¬op.ok = some true →
            (setDbGeneratedValues response entities).getD i d
              = entities.getD i d))
    ∧ (successLookup response (entities.getD i d) = none →
        (setDbGeneratedValues response entities).getD i d
          = entities.getD i d) := by
  have hmap : (setDbGeneratedValues response entities).getD i d
      = applyGeneratedValue response (entities.getD i d) := by
    unfold setDbGeneratedValues
    exact getD_map_of_lt (applyGeneratedValue response) entities i d hi
  refine ⟨by simp [setDbGeneratedValues], ?_, ?_⟩
  · intro op hop
    constructor
    · intro hok
      rw [hmap]
      unfold applyGeneratedValue
      rw [hop]
      simp [hok]
    · intro hok
      rw [hmap]
      unfold applyGeneratedValue
      rw [hop]
      simp [hok]
  · intro hnone
    rw [hmap]
    unfold applyGeneratedValue
    rw [hnone]

/-- Witness for claim C10 at a concrete response and entity array. -/
theorem setDbGeneratedValues_frame_witness :
    0 < [entC10].length
    ∧ successLookup respC10 ([entC10].getD 0 badEntity) = some opC10
    ∧ opC10.ok = some true
    ∧ (setDbGeneratedValues respC10 [entC10]).getD 0 badEntity
        = { [entC10].getD 0 badEntity with _rev := opC10.rev } :=
  ⟨by decide, by decide, by decide,
    ((setDbGeneratedValues_frame respC10 [entC10] 0 badEntity (by decide)).2.1
        opC10 (by decide)).1 (by decide)⟩

theorem foldl_format_spec (items : List BulkDocsItem) :
    ∀ acc : IBulkOperationsResponse,
      (items.foldl formatStep acc).successes_count
          = acc.successes_count + (successIds items).length
      ∧ (items.foldl formatStep acc).errors_count
          = acc.errors_count + (errorIds items).length
      ∧ alKeys (items.foldl formatStep acc).successes
          = (successIds items).reverse ++ alKeys acc.successes
      ∧ alKeys (items.foldl formatStep acc).errors
          = (errorIds items).reverse ++ alKeys acc.errors := by
  induction items with
  | nil =>
    intro acc
    simp [successIds, errorIds]
  | cons x rest ih =>
    intro acc
    rw [List.foldl_cons]
    cases x with
    | success s =>
      obtain ⟨h1, h2, h3, h4⟩ := ih (formatStep acc (BulkDocsItem.success s))
      refine ⟨?_, ?_, ?_, ?_⟩
      · rw [h1]
        simp [formatStep, successIds, List.filterMap_cons]
        omega
      · rw [h2]
        simp [formatStep, errorIds, List.filterMap_cons]
      · rw [h3]
        simp [formatStep, successIds, alInsert, alKeys, List.filterMap_cons]
      · rw [h4]
        simp [formatStep, errorIds, List.filterMap_cons]
    | error e =>
      cases hid : e.id with
      | none =>
        obtain ⟨h1, h2, h3, h4⟩ := ih (formatStep acc (BulkDocsItem.error e))
        refine ⟨?_, ?_, ?_, ?_⟩
        · rw [h1]
          simp [formatStep, hid, successIds, truthyId, List.filterMap_cons]
        · rw [h2]
          simp [formatStep, hid, errorIds, truthyId, List.filterMap_cons]
        · rw [h3]
          simp [formatStep, hid, successIds, truthyId, List.filterMap_cons]
        · rw [h4]
          simp [formatStep, hid, errorIds, truthyId, List.filterMap_cons]
      | some eid =>
        by_cases he : eid = ""
        · obtain ⟨h1, h2, h3, h4⟩ := ih (formatStep acc (BulkDocsItem.error e))
          refine ⟨?_, ?_, ?_, ?_⟩
          · rw [h1]
            simp [formatStep, hid, he, successIds, truthyId, List.filterMap_cons]
          · rw [h2]
            simp [formatStep, hid, he, errorIds, truthyId, List.filterMap_cons]
          · rw [h3]
            simp [formatStep, hid, he, successIds, truthyId, List.filterMap_cons]
          · rw [h4]
            simp [formatStep, hid, he, errorIds, truthyId, List.filterMap_cons]
        · obtain ⟨h1, h2, h3, h4⟩ := ih (formatStep acc (BulkDocsItem.error e))
          refine ⟨?_, ?_, ?_, ?_⟩
          · rw [h1]
            simp [formatStep, hid, he, successIds, truthyId, List.filterMap_cons]
          · rw [h2]
            simp [formatStep, hid, he, errorIds, truthyId, List.filterMap_cons]
            omega
          · rw [h3]
            simp [formatStep, hid, he, successIds, truthyId, alInsert, alKeys,
              List.filterMap_cons]
          · rw [h4]
            simp [formatStep, hid, he, errorIds, truthyId, alInsert, alKeys,
              List.filterMap_cons]

theorem ids_partition_length (items : List BulkDocsItem) :
    (successIds items).length + (errorIds items).length + droppedErrorCount items
      = items.length := by
  induction items with
  | nil => simp [successIds, errorIds, droppedErrorCount]
  | cons x rest ih =>
    cases x with
    | success s =>
      simp only [successIds, errorIds, droppedErrorCount, truthyId,
        List.filterMap_cons, List.countP_cons, List.length_cons] at ih ⊢
      simp at ih ⊢
      omega
    | error e =>
      cases hid : e.id with
      | none =>
        simp only [successIds, errorIds, droppedErrorCount, truthyId, hid,
          List.filterMap_cons, List.countP_cons, List.length_cons] at ih ⊢
        simp [hid, truthyId] at ih ⊢
        omega
      | some a =>
        by_cases he : a = ""
        · simp only [successIds, errorIds, droppedErrorCount,
            List.filterMap_cons, List.countP_cons, List.length_cons] at ih ⊢
          simp [hid, he, truthyId] at ih ⊢
          omega
        · simp only [successIds, errorIds, droppedErrorCount,
            List.filterMap_cons, List.countP_cons, List.length_cons] at ih ⊢
          simp [hid, he, truthyId] at ih ⊢
          omega

theorem count_ids_split (items : List BulkDocsItem) (s : String) :
    (successIds items).count s + (errorIds items).count s
      = (keyedIds items).count s := by
  induction items with
  | nil => simp [successIds, errorIds, keyedIds]
  | cons x rest ih =>
    cases x with
    | success t =>
      simp only [successIds, errorIds, keyedIds, keyedId,
        List.filterMap_cons] at ih ⊢
      simp only [List.count_cons]
      by_cases hst : t.id = s <;> simp [hst] at ih ⊢ <;> omega
    | error e =>
      cases hid : e.id with
      | none =>
        simp only [successIds, errorIds, keyedIds, keyedId, hid, truthyId,
          List.filterMap_cons] at ih ⊢
        exact ih
      | some a =>
        by_cases he : a = ""
        · subst he
          simp only [successIds, errorIds, keyedIds, keyedId, hid, truthyId,
            List.filterMap_cons] at ih ⊢
          simpa using ih
        · simp only [successIds, errorIds, keyedIds, keyedId,
            List.filterMap_cons] at ih ⊢
          simp only [hid, truthyId, if_neg he] at ih ⊢
          simp only [List.count_cons]
          by_cases hst : a = s <;> simp [hst] at ih ⊢ <;> omega

/-- Claim C2 (amended): for every list of raw bulk-write outcomes,
`successes_count + errors_count + (number of error items whose id is absent
or empty)` equals the total number of outcomes (the truthiness guard
`!error.id` drops empty-string error ids as well as absent ones, and success
items are counted whatever their id); and provided no id is carried by two
map-entering outcomes (success ids and nonempty error ids pairwise
distinct), every success outcome and every error outcome with a nonempty id
lands in exactly the map of its own kind, the two maps have disjoint key
sets, and each count equals the cardinality of its map. Without the
distinctness proviso an id occurring both as a success and as an error is a
key of both maps (see the counterexample), so only the count equation holds
unconditionally. -/
theorem formatBulkDocsResponse_reconciles (items : List BulkDocsItem) :
    (formatBulkDocsResponse items).successes_count
        + (formatBulkDocsResponse items).errors_count
        + droppedErrorCount items = items.length
    ∧ ((keyedIds items).Nodup →
        (∀ it ∈ items, ∀ s, keyedId it = some s →
            (isErrorItem it = true →
              s ∈ alKeys (formatBulkDocsResponse items).errors
              ∧ s ∉ alKeys (formatBulkDocsResponse items).successes)
          ∧ (isErrorItem it = false →
              s ∈ alKeys (formatBulkDocsResponse items).successes
              ∧ s ∉ alKeys (formatBulkDocsResponse items).errors))
        ∧ (∀ s, s ∈ alKeys (formatBulkDocsResponse items).successes →
            s ∉ alKeys (formatBulkDocsResponse items).errors)
        ∧ (formatBulkDocsResponse items).successes_count
            = alCard (formatBulkDocsResponse items).successes
        ∧ (formatBulkDocsResponse items).errors_count
            = alCard (formatBulkDocsResponse items).errors) := by
  obtain ⟨hc1, hc2, hk1, hk2⟩ := foldl_format_spec items emptyResponse
  have hsc : (formatBulkDocsResponse items).successes_count
      = (successIds items).length := by
    simpa [formatBulkDocsResponse, emptyResponse] using hc1
  have hec : (formatBulkDocsResponse items).errors_count
      = (errorIds items).length := by
    simpa [formatBulkDocsResponse, emptyResponse] using hc2
  have hks : alKeys (formatBulkDocsResponse items).successes
      = (successIds items).reverse := by
    simpa [formatBulkDocsResponse, emptyResponse, alKeys] using hk1
  have hke : alKeys (formatBulkDocsResponse items).errors
      = (errorIds items).reverse := by
    simpa [formatBulkDocsResponse, emptyResponse, alKeys] using hk2
  constructor
  · rw [hsc, hec]
    exact ids_partition_length items
  · intro hnodup
    have hcount : ∀ a, (keyedIds items).count a ≤ 1 :=
      List.nodup_iff_count_le_one.mp hnodup
    have hdisj : ∀ s, ¬(s ∈ successIds items ∧ s ∈ errorIds items) := by
      rintro s ⟨h1, h2⟩
      have c1 := List.count_pos_iff.mpr h1
      have c2 := List.count_pos_iff.mpr h2
      have c3 := count_ids_split items s
      have c4 := hcount s
      omega
    refine ⟨?_, ?_, ?_, ?_⟩
    · intro it hit s hid
      constructor
      · intro herr
        have hmem : s ∈ errorIds items := by
          rcases it with t | e
          · simp [isErrorItem] at herr
          · exact List.mem_filterMap.mpr
              ⟨BulkDocsItem.error e, hit, by simpa [keyedId] using hid⟩
        refine ⟨by rw [hke, List.mem_reverse]; exact hmem, ?_⟩
        rw [hks, List.mem_reverse]
        intro hcon
        exact hdisj s ⟨hcon, hmem⟩
      · intro herr
        have hmem : s ∈ successIds items := by
          rcases it with t | e
          · exact List.mem_filterMap.mpr
              ⟨BulkDocsItem.success t, hit, by simpa [keyedId] using hid⟩
          · simp [isErrorItem] at herr
        refine ⟨by rw [hks, List.mem_reverse]; exact hmem, ?_⟩
        rw [hke, List.mem_reverse]
        intro hcon
        exact hdisj s ⟨hmem, hcon⟩
    · intro s hs
      rw [hks, List.mem_reverse] at hs
      rw [hke, List.mem_reverse]
      intro hcon
      exact hdisj s ⟨hs, hcon⟩
    · have hnod : (successIds items).Nodup := by
        rw [List.nodup_iff_count_le_one]
        intro a
        have c3 := count_ids_split items a
        have c4 := hcount a
        omega
      rw [hsc]
      unfold alCard
      rw [hks, List.dedup_eq_self.mpr (List.nodup_reverse.mpr hnod),
        List.length_reverse]
    · have hnod : (errorIds items).Nodup := by
        rw [List.nodup_iff_count_le_one]
        intro a
        have c3 := count_ids_split items a
        have c4 := hcount a
        omega
      rw [hec]
      unfold alCard
      rw [hke, List.dedup_eq_self.mpr (List.nodup_reverse.mpr hnod),
        List.length_reverse]

/-- Witness for claim C2 at a list with a success, an attributable error and
an unattributable error. -/
theorem formatBulkDocsResponse_reconciles_witness :
    (keyedIds itemsC2).Nodup
    ∧ ((formatBulkDocsResponse itemsC2).successes_count
        + (formatBulkDocsResponse itemsC2).errors_count
        + droppedErrorCount itemsC2 = itemsC2.length)
    ∧ (formatBulkDocsResponse itemsC2).successes_count
        = alCard (formatBulkDocsResponse itemsC2).successes
    ∧ (formatBulkDocsResponse itemsC2).errors_count
        = alCard (formatBulkDocsResponse itemsC2).errors :=
  ⟨by decide, (formatBulkDocsResponse_reconciles itemsC2).1,
    (((formatBulkDocsResponse_reconciles itemsC2).2 (by decide)).2.2.1),
    (((formatBulkDocsResponse_reconciles itemsC2).2 (by decide)).2.2.2)⟩

/-- Claim C2, counterexample: two concrete failures of the claim as stated.
When the same id occurs on a success outcome and on an error outcome, it is
a key of both reconciled maps, so the maps are not keyed disjointly. And an
error outcome carrying a present but empty id is dropped by the truthiness
guard `!error.id`: it enters neither map and neither count although its id
is present, so on that one-element list
`successes_count + errors_count + (number of items missing an id)` is 0,
not the total 1. -/
theorem formatBulkDocsResponse_reconcile_counterexample :
    (idLitA ∈ alKeys (formatBulkDocsResponse dupItems).successes
      ∧ idLitA ∈ alKeys (formatBulkDocsResponse dupItems).errors)
    ∧ ((formatBulkDocsResponse emptyIdItems).successes_count = 0
      ∧ (formatBulkDocsResponse emptyIdItems).errors_count = 0
      ∧ missingIdCount emptyIdItems = 0
      ∧ alKeys (formatBulkDocsResponse emptyIdItems).errors = []
      ∧ alKeys (formatBulkDocsResponse emptyIdItems).successes = []
      ∧ itemId (BulkDocsItem.error
          { id := some emptyIdLit, message := some conflictMsg, rev := none })
          = some emptyIdLit
      ∧ emptyIdItems.length = 1) := by
  decide
